import Mathlib

/-!
# Verification of the Activity Standardization & Windowed Feature Engine

Shallow embedding of the feature-engineering core of the game-churn-prediction
repository (`src/game_churn/features/engineer.py`, `standardize.py`, `build.py`
and `utils/config.py`), together with theorems settling the frozen claims.

Conventions of the embedding:
* timestamps and durations are integers (seconds, UTC epoch); a calendar date is
  the floor-division of the epoch second by 86400;
* Python floats are modelled as exact rationals `ℚ`; `round(x, n)` is modelled by
  `roundTo n` (round the scaled value to the nearest integer, halves up);
* a Polars DataFrame of activities is a `List PlayerActivity`;
* the raw-file store consumed by a standardizer is a `RawFile` value: the file is
  missing, present but unparseable (`json.loads` raises), or parsed;
* fallible code returns `Except String`.
-/

/-- One standardized activity record (`PlayerActivity` in `features/schema.py`). -/
structure PlayerActivity where
  player_id : String
  platform : String
  game_timestamp : Int
  duration_seconds : Int
  result : String
  rating : Option Int
  game_mode : String
deriving DecidableEq, Repr

/-- `round(x, n)` of Python, on exact rationals: scale by `10 ^ n`, round to the
nearest integer, and scale back. -/
def roundTo (n : ℕ) (x : ℚ) : ℚ :=
  ((round (x * 10 ^ n) : ℤ) : ℚ) / 10 ^ n

/-- `df.filter((col player_id == pid) & (col platform == pf))`. -/
def filterPlayer (df : List PlayerActivity) (pid pf : String) : List PlayerActivity :=
  df.filter (fun a => a.player_id == pid && a.platform == pf)

/-- `player_df.filter(col game_timestamp >= ref - timedelta(days=w))`. -/
def windowActs (pdf : List PlayerActivity) (ref w : Int) : List PlayerActivity :=
  pdf.filter (fun a => decide (ref - w * 86400 ≤ a.game_timestamp))

/-- `len(window_df)`. -/
def games_in (pdf : List PlayerActivity) (ref w : Int) : ℕ :=
  (windowActs pdf ref w).length

/-- `round(window_df[duration_seconds].sum() / 3600.0, 2)`. -/
def playtime_in (pdf : List PlayerActivity) (ref w : Int) : ℚ :=
  roundTo 2 ((((windowActs pdf ref w).map (·.duration_seconds)).sum : ℚ) / 3600)

/-- `round(unique_days / window_days, 3)` when the window has games, else `0.0`;
`unique_days` counts distinct calendar dates among the window's timestamps. -/
def sessions_in (pdf : List PlayerActivity) (ref w : Int) : ℚ :=
  if 0 < games_in pdf ref w then
    roundTo 3
      (((((windowActs pdf ref w).map (fun a => Int.fdiv a.game_timestamp 86400)).dedup).length : ℚ)
        / (w : ℚ))
  else 0

/-- Timestamp order on activities, the key of every `sort("game_timestamp")`. -/
def tsLE (a b : PlayerActivity) : Prop :=
  a.game_timestamp ≤ b.game_timestamp

instance : DecidableRel tsLE := fun a b =>
  inferInstanceAs (Decidable (a.game_timestamp ≤ b.game_timestamp))

instance : IsTotal PlayerActivity tsLE :=
  ⟨fun a b => Int.le_total a.game_timestamp b.game_timestamp⟩

instance : IsTrans PlayerActivity tsLE :=
  ⟨fun _ _ _ h h' => le_trans h h'⟩

/-- Max gap (in days, rounded to 2 decimals) between consecutive activities of the
30-day window sorted by timestamp; sentinel `30.0` with fewer than two activities. -/
def max_gap_days (pdf : List PlayerActivity) (ref : Int) : ℚ :=
  let recent := List.insertionSort tsLE (windowActs pdf ref 30)
  if 2 ≤ recent.length then
    let ts := recent.map (·.game_timestamp)
    match ((ts.zip ts.tail).map (fun q => ((q.2 - q.1 : Int) : ℚ) / 86400)).max? with
    | some m => roundTo 2 m
    | none => 30
  else 30

/-- Output of `compute_time_window_features` (the window-counter keys of the dict). -/
structure TimeWindowFeatures where
  player_id : String
  platform : String
  games_7d : ℕ
  games_14d : ℕ
  games_30d : ℕ
  playtime_7d_hours : ℚ
  playtime_14d_hours : ℚ
  playtime_30d_hours : ℚ
  avg_daily_sessions_7d : ℚ
  avg_daily_sessions_14d : ℚ
  avg_daily_sessions_30d : ℚ
  max_gap_days_30d : ℚ
deriving DecidableEq, Repr

/-- `_empty_features` of `engineer.py`: the zeroed snapshot of a player with no data. -/
def _empty_features (pid pf : String) : TimeWindowFeatures :=
  ⟨pid, pf, 0, 0, 0, 0, 0, 0, 0, 0, 0, 30⟩

/-- `compute_time_window_features` of `engineer.py`. -/
def compute_time_window_features (df : List PlayerActivity) (pid pf : String) (ref : Int) :
    TimeWindowFeatures :=
  let pdf := filterPlayer df pid pf
  if pdf.isEmpty then _empty_features pid pf
  else
    { player_id := pid
      platform := pf
      games_7d := games_in pdf ref 7
      games_14d := games_in pdf ref 14
      games_30d := games_in pdf ref 30
      playtime_7d_hours := playtime_in pdf ref 7
      playtime_14d_hours := playtime_in pdf ref 14
      playtime_30d_hours := playtime_in pdf ref 30
      avg_daily_sessions_7d := sessions_in pdf ref 7
      avg_daily_sessions_14d := sessions_in pdf ref 14
      avg_daily_sessions_30d := sessions_in pdf ref 30
      max_gap_days_30d := max_gap_days pdf ref }

/-- Output of `compute_trend_features` (the two keys it adds to the dict). -/
structure TrendFeatures where
  games_trend_7d_vs_14d : ℚ
  playtime_trend_7d_vs_14d : ℚ
deriving DecidableEq, Repr

/-- `compute_trend_features` of `engineer.py`: guarded ratios rounded to 3 decimals. -/
def compute_trend_features (games_7d games_14d : Int) (pt_7d pt_14d : ℚ) : TrendFeatures :=
  { games_trend_7d_vs_14d :=
      if 0 < games_14d then roundTo 3 ((games_7d : ℚ) / (games_14d : ℚ)) else 0
    playtime_trend_7d_vs_14d :=
      if 0 < pt_14d then roundTo 3 (pt_7d / pt_14d) else 0 }

/-- Output of `compute_performance_features`. -/
structure PerformanceFeatures where
  win_rate_7d : ℚ
  win_rate_30d : ℚ
  rating_current : Option Int
  rating_change_30d : Int
deriving DecidableEq, Repr

/-- `round(wins / total, 3)` when the window has games, else `0.0`. -/
def win_rate_in (pdf : List PlayerActivity) (ref w : Int) : ℚ :=
  let window := windowActs pdf ref w
  if 0 < window.length then
    roundTo 3 (((window.filter (fun a => a.result == "win")).length : ℚ) / (window.length : ℚ))
  else 0

/-- `player_df.filter(col rating is_not_null).sort("game_timestamp")` — the rated
activities in (stable) timestamp order. -/
def ratedSorted (pdf : List PlayerActivity) : List PlayerActivity :=
  List.insertionSort tsLE (pdf.filter (fun a => a.rating.isSome))

/-- `compute_performance_features` of `engineer.py`. -/
def compute_performance_features (df : List PlayerActivity) (pid pf : String) (ref : Int) :
    PerformanceFeatures :=
  let pdf := filterPlayer df pid pf
  let rated := ratedSorted pdf
  match rated.getLast? with
  | none => ⟨win_rate_in pdf ref 7, win_rate_in pdf ref 30, none, 0⟩
  | some last =>
    let current := last.rating.getD 0
    let old_rated := rated.filter (fun a => decide (a.game_timestamp ≤ ref - 30 * 86400))
    let change :=
      match old_rated.getLast? with
      | none => 0
      | some old => current - old.rating.getD 0
    ⟨win_rate_in pdf ref 7, win_rate_in pdf ref 30, some current, change⟩

/-- One entry of a player's OpenDota peers file (`p.get("games", 0)` can be absent). -/
structure Peer where
  games : Option Int
deriving DecidableEq, Repr

/-- `compute_social_features` of `engineer.py`: `(unique_peers_30d, peer_games_30d)`,
zero when the player has no peers file. -/
def compute_social_features (pid : String) (peerStore : String → Option (List Peer)) : ℕ × Int :=
  match peerStore pid with
  | none => (0, 0)
  | some peers => (peers.length, (peers.map (fun p => p.games.getD 0)).sum)

/-- `compute_engagement_score` of `engineer.py`: weighted sum of five terms, capped
at 100 and rounded to 2 decimals. -/
def compute_engagement_score
    (games_30d avg_daily_sessions_30d games_trend win_rate_30d unique_peers_30d : ℚ) : ℚ :=
  roundTo 2
    (min
      (min (games_30d / 2) 30 + min (avg_daily_sessions_30d * 30) 20 +
        min (games_trend * 20) 20 + win_rate_30d * 15 + min (unique_peers_30d / 3) 15)
      100)

/-- `Settings` of `utils/config.py`: plain fields with defaults and no range
constraints on any of them. -/
structure Settings where
  riot_api_key : String := ""
  rawg_api_key : String := ""
  churn_threshold_days : Int := 14
  request_timeout : Int := 30
  max_retries : Int := 3
deriving DecidableEq, Repr

/-- The module-level `settings = Settings()` built with every default. -/
def defaultSettings : Settings := {}

/-- Output of `compute_churn_label`. -/
structure ChurnLabel where
  days_since_last_game : ℚ
  churned : Bool
deriving DecidableEq, Repr

/-- `player_df[game_timestamp].max()`: `none` exactly when the player has no rows. -/
def maxTs (pdf : List PlayerActivity) : Option Int :=
  (pdf.map (·.game_timestamp)).max?

/-- `compute_churn_label` of `engineer.py`: sentinel `⟨999, true⟩` for an empty
player frame; otherwise the unrounded days-since value is compared with the
threshold while the rounded value is returned. -/
def compute_churn_label (df : List PlayerActivity) (pid pf : String) (ref : Int)
    (s : Settings) : ChurnLabel :=
  match maxTs (filterPlayer df pid pf) with
  | none => ⟨999, true⟩
  | some last =>
    let days_since : ℚ := ((ref - last : Int) : ℚ) / 86400
    ⟨roundTo 2 days_since, decide ((s.churn_threshold_days : ℚ) ≤ days_since)⟩

/-- One side of a Chess.com game (`game.get("white", {})` and `.get("black", {})`);
every key may be absent. -/
structure ChessSide where
  username : Option String
  result : Option String
  rating : Option Int
deriving DecidableEq, Repr

/-- One raw Chess.com game record; every key may be absent. -/
structure ChessGame where
  end_time : Option Int
  white : Option ChessSide
  black : Option ChessSide
  time_class : Option String
deriving DecidableEq, Repr

/-- State of one raw file as a standardizer sees it: the path does not exist, the
file exists but `json.loads` raises on its text, or it parses to records. -/
inductive RawFile (α : Type) where
  | missing : RawFile α
  | malformed : RawFile α
  | parsed : α → RawFile α
deriving DecidableEq

/-- Outcome classification of `standardize_chess_com`: explicit `"win"`, the four
recognized loss strings, `"draw"` for everything else. -/
def chessResultOf (s : String) : String :=
  if s == "win" then "win"
  else if s == "checkmated" || s == "timeout" || s == "resigned" || s == "abandoned" then "loss"
  else "draw"

/-- The `PlayerActivity` built for one raw Chess.com game: timestamp from
`end_time` when truthy, else the wall-clock `now`; duration 0. -/
def activityOfChessGame (username : String) (now : Int) (game : ChessGame) : PlayerActivity :=
  let ts := game.end_time.getD 0
  let game_dt := if ts ≠ 0 then ts else now
  let white := game.white.getD ⟨none, none, none⟩
  let black := game.black.getD ⟨none, none, none⟩
  let is_white := (white.username.getD "").toLower == username.toLower
  let player_data := if is_white then white else black
  { player_id := username.toLower
    platform := "chess_com"
    game_timestamp := game_dt
    duration_seconds := 0
    result := chessResultOf (player_data.result.getD "unknown")
    rating := player_data.rating
    game_mode := game.time_class.getD "unknown" }

/-- Message of the exception `json.loads` raises on unparseable text. -/
def jsonDecodeError : String := "JSONDecodeError"

/-- `standardize_chess_com` of `standardize.py`: `[]` when the games file does not
exist; otherwise `_load_json` runs (raising on a malformed file) and every parsed
record is mapped to an activity. -/
def standardize_chess_com (file : RawFile (List ChessGame)) (username : String) (now : Int) :
    Except String (List PlayerActivity) :=
  match file with
  | .missing => .ok []
  | .malformed => .error jsonDecodeError
  | .parsed games => .ok (games.map (activityOfChessGame username now))

/-- Engine output row, one per `(player_id, platform)` (`PlayerFeatures` in
`features/schema.py`). -/
structure PlayerFeatures where
  player_id : String
  platform : String
  games_7d : ℕ
  games_14d : ℕ
  games_30d : ℕ
  playtime_7d_hours : ℚ
  playtime_14d_hours : ℚ
  playtime_30d_hours : ℚ
  avg_daily_sessions_7d : ℚ
  avg_daily_sessions_14d : ℚ
  avg_daily_sessions_30d : ℚ
  max_gap_days_30d : ℚ
  games_trend_7d_vs_14d : ℚ
  playtime_trend_7d_vs_14d : ℚ
  win_rate_7d : ℚ
  win_rate_30d : ℚ
  rating_current : Option Int
  rating_change_30d : Int
  unique_peers_30d : ℕ
  peer_games_30d : Int
  engagement_score : ℚ
  days_since_last_game : ℚ
  churned : Bool
deriving DecidableEq, Repr

/-- `build_features_for_player` of `engineer.py`: window, trend, performance,
platform-conditional social, engagement and churn features for one player. -/
def build_features_for_player (df : List PlayerActivity) (pid pf : String) (ref : Int)
    (peerStore : String → Option (List Peer)) (s : Settings) : PlayerFeatures :=
  let f := compute_time_window_features df pid pf ref
  let t := compute_trend_features (f.games_7d : Int) (f.games_14d : Int)
    f.playtime_7d_hours f.playtime_14d_hours
  let p := compute_performance_features df pid pf ref
  let social := if pf == "opendota" then compute_social_features pid peerStore else (0, 0)
  let es := compute_engagement_score (f.games_30d : ℚ) f.avg_daily_sessions_30d
    t.games_trend_7d_vs_14d p.win_rate_30d (social.1 : ℚ)
  let c := compute_churn_label df pid pf ref s
  { player_id := f.player_id
    platform := f.platform
    games_7d := f.games_7d
    games_14d := f.games_14d
    games_30d := f.games_30d
    playtime_7d_hours := f.playtime_7d_hours
    playtime_14d_hours := f.playtime_14d_hours
    playtime_30d_hours := f.playtime_30d_hours
    avg_daily_sessions_7d := f.avg_daily_sessions_7d
    avg_daily_sessions_14d := f.avg_daily_sessions_14d
    avg_daily_sessions_30d := f.avg_daily_sessions_30d
    max_gap_days_30d := f.max_gap_days_30d
    games_trend_7d_vs_14d := t.games_trend_7d_vs_14d
    playtime_trend_7d_vs_14d := t.playtime_trend_7d_vs_14d
    win_rate_7d := p.win_rate_7d
    win_rate_30d := p.win_rate_30d
    rating_current := p.rating_current
    rating_change_30d := p.rating_change_30d
    unique_peers_30d := social.1
    peer_games_30d := social.2
    engagement_score := es
    days_since_last_game := c.days_since_last_game
    churned := c.churned }

/-- `build_all_features` of `features/build.py`: one feature row for every distinct
`(player_id, platform)` pair of the unified activity collection, each built by
`build_features_for_player` against the same collection, peer store, settings and
reference instant. -/
def build_all_features (df : List PlayerActivity) (peerStore : String → Option (List Peer))
    (s : Settings) (now : Int) : List PlayerFeatures :=
  ((df.map (fun a => (a.player_id, a.platform))).dedup).map
    (fun pp => build_features_for_player df pp.1 pp.2 now peerStore s)

/-! ## Rounding lemmas -/

theorem roundTo_mono (n : ℕ) {x y : ℚ} (h : x ≤ y) : roundTo n x ≤ roundTo n y := by
  unfold roundTo
  have hp : (0 : ℚ) < 10 ^ n := by positivity
  gcongr
  exact_mod_cast by
    rw [round_eq, round_eq]
    exact Int.floor_mono (by nlinarith)

theorem roundTo_intCast (n : ℕ) (m : ℤ) : roundTo n (m : ℚ) = m := by
  unfold roundTo
  rw [show ((m : ℚ) * 10 ^ n) = ((m * 10 ^ n : ℤ) : ℚ) by push_cast; ring, round_intCast]
  rw [div_eq_iff (by positivity)]
  push_cast; ring

theorem roundTo_nonneg (n : ℕ) {x : ℚ} (h : 0 ≤ x) : 0 ≤ roundTo n x := by
  have h0 := roundTo_mono n h
  rwa [show roundTo n 0 = ((0 : ℤ) : ℚ) from roundTo_intCast n 0] at h0

/-! ## Window monotonicity -/

theorem windowActs_sublist (pdf : List PlayerActivity) (ref : Int) {w v : Int} (h : w ≤ v) :
    List.Sublist (windowActs pdf ref w) (windowActs pdf ref v) := by
  apply List.monotone_filter_right
  intro a ha
  simp only [decide_eq_true_eq] at ha ⊢
  have : v * 86400 - w * 86400 = (v - w) * 86400 := by ring
  nlinarith [sub_nonneg.mpr h]

theorem games_in_mono (pdf : List PlayerActivity) (ref : Int) {w v : Int} (h : w ≤ v) :
    games_in pdf ref w ≤ games_in pdf ref v :=
  (windowActs_sublist pdf ref h).length_le

theorem playtime_in_mono (pdf : List PlayerActivity) (ref : Int) {w v : Int} (h : w ≤ v)
    (hd : ∀ a ∈ pdf, 0 ≤ a.duration_seconds) :
    playtime_in pdf ref w ≤ playtime_in pdf ref v := by
  unfold playtime_in
  apply roundTo_mono
  have hsub : List.Sublist ((windowActs pdf ref w).map (fun a => (a.duration_seconds : ℚ)))
      ((windowActs pdf ref v).map (fun a => (a.duration_seconds : ℚ))) :=
    (windowActs_sublist pdf ref h).map _
  have hnn : ∀ x ∈ (windowActs pdf ref v).map (fun a => (a.duration_seconds : ℚ)), (0 : ℚ) ≤ x := by
    intro x hx
    obtain ⟨a, ha, rfl⟩ := List.mem_map.mp hx
    exact_mod_cast hd a (List.mem_of_mem_filter ha)
  exact div_le_div_of_nonneg_right (hsub.sum_le_sum hnn) (by norm_num : (0 : ℚ) ≤ 3600)

theorem ctwf_g7_le_g14 (df : List PlayerActivity) (pid pf : String) (ref : Int) :
    (compute_time_window_features df pid pf ref).games_7d ≤
      (compute_time_window_features df pid pf ref).games_14d := by
  unfold compute_time_window_features
  by_cases h : (filterPlayer df pid pf).isEmpty
  · simp [h, _empty_features]
  · rw [if_neg h]
    exact games_in_mono _ _ (by norm_num)

theorem ctwf_g14_le_g30 (df : List PlayerActivity) (pid pf : String) (ref : Int) :
    (compute_time_window_features df pid pf ref).games_14d ≤
      (compute_time_window_features df pid pf ref).games_30d := by
  unfold compute_time_window_features
  by_cases h : (filterPlayer df pid pf).isEmpty
  · simp [h, _empty_features]
  · rw [if_neg h]
    exact games_in_mono _ _ (by norm_num)

theorem ctwf_pt7_le_pt14 (df : List PlayerActivity) (pid pf : String) (ref : Int)
    (hd : ∀ a ∈ df, 0 ≤ a.duration_seconds) :
    (compute_time_window_features df pid pf ref).playtime_7d_hours ≤
      (compute_time_window_features df pid pf ref).playtime_14d_hours := by
  unfold compute_time_window_features
  by_cases h : (filterPlayer df pid pf).isEmpty
  · simp [h, _empty_features]
  · rw [if_neg h]
    exact playtime_in_mono _ _ (by norm_num)
      (fun a ha => hd a (List.mem_of_mem_filter ha))

theorem ctwf_pt14_le_pt30 (df : List PlayerActivity) (pid pf : String) (ref : Int)
    (hd : ∀ a ∈ df, 0 ≤ a.duration_seconds) :
    (compute_time_window_features df pid pf ref).playtime_14d_hours ≤
      (compute_time_window_features df pid pf ref).playtime_30d_hours := by
  unfold compute_time_window_features
  by_cases h : (filterPlayer df pid pf).isEmpty
  · simp [h, _empty_features]
  · rw [if_neg h]
    exact playtime_in_mono _ _ (by norm_num)
      (fun a ha => hd a (List.mem_of_mem_filter ha))

/-- C2: for every activity collection, player, platform and reference instant, the
window counters of `compute_time_window_features` satisfy
`games_7d ≤ games_14d ≤ games_30d`, and likewise for the playtime hours (the
activity durations being non-negative, as the data model requires). -/
theorem C2_window_counters_monotone (df : List PlayerActivity) (pid pf : String) (ref : Int)
    (hd : ∀ a ∈ df, 0 ≤ a.duration_seconds) :
    ((compute_time_window_features df pid pf ref).games_7d ≤
        (compute_time_window_features df pid pf ref).games_14d ∧
      (compute_time_window_features df pid pf ref).games_14d ≤
        (compute_time_window_features df pid pf ref).games_30d) ∧
    ((compute_time_window_features df pid pf ref).playtime_7d_hours ≤
        (compute_time_window_features df pid pf ref).playtime_14d_hours ∧
      (compute_time_window_features df pid pf ref).playtime_14d_hours ≤
        (compute_time_window_features df pid pf ref).playtime_30d_hours) :=
  ⟨⟨ctwf_g7_le_g14 df pid pf ref, ctwf_g14_le_g30 df pid pf ref⟩,
    ctwf_pt7_le_pt14 df pid pf ref hd, ctwf_pt14_le_pt30 df pid pf ref hd⟩

/-- Concrete activities used by witnesses. -/
def actW : PlayerActivity :=
  ⟨"p", "chess_com", 0, 1800, "win", some 1500, "rapid"⟩

/-- Witness for C2 at a one-activity collection. -/
theorem C2_window_counters_monotone_witness :
    (∀ a ∈ [actW], 0 ≤ a.duration_seconds) ∧
      ((compute_time_window_features [actW] "p" "chess_com" 86400).games_7d ≤
          (compute_time_window_features [actW] "p" "chess_com" 86400).games_14d ∧
        (compute_time_window_features [actW] "p" "chess_com" 86400).playtime_7d_hours ≤
          (compute_time_window_features [actW] "p" "chess_com" 86400).playtime_14d_hours) :=
  ⟨by decide,
    (C2_window_counters_monotone [actW] "p" "chess_com" 86400 (by decide)).1.1,
    (C2_window_counters_monotone [actW] "p" "chess_com" 86400 (by decide)).2.1⟩

/-- C1: for non-negative inputs — the caps may be exceeded — the engagement score
is within `[0, 100]`. -/
theorem C1_engagement_score_in_range (g a t w p : ℚ)
    (hg : 0 ≤ g) (ha : 0 ≤ a) (ht : 0 ≤ t) (hw : 0 ≤ w) (hp : 0 ≤ p) :
    0 ≤ compute_engagement_score g a t w p ∧ compute_engagement_score g a t w p ≤ 100 := by
  unfold compute_engagement_score
  have h1 : (0 : ℚ) ≤ min (g / 2) 30 := le_min (by positivity) (by norm_num)
  have h2 : (0 : ℚ) ≤ min (a * 30) 20 := le_min (by positivity) (by norm_num)
  have h3 : (0 : ℚ) ≤ min (t * 20) 20 := le_min (by positivity) (by norm_num)
  have h4 : (0 : ℚ) ≤ w * 15 := by positivity
  have h5 : (0 : ℚ) ≤ min (p / 3) 15 := le_min (by positivity) (by norm_num)
  have h100 : roundTo 2 (100 : ℚ) = 100 := by exact_mod_cast roundTo_intCast 2 100
  constructor
  · exact roundTo_nonneg 2 (le_min (by linarith) (by norm_num))
  · calc roundTo 2 (min (min (g / 2) 30 + min (a * 30) 20 + min (t * 20) 20 + w * 15 +
          min (p / 3) 15) 100) ≤ roundTo 2 100 := roundTo_mono 2 (min_le_right _ _)
      _ = 100 := h100

/-- Witness for C1 at inputs exceeding every term's natural cap (including a
win rate above 1); the score saturates at exactly 100. -/
theorem C1_engagement_score_in_range_witness :
    (0 ≤ compute_engagement_score 1000 50 9 2 1000 ∧
      compute_engagement_score 1000 50 9 2 1000 ≤ 100) ∧
    compute_engagement_score 1000 50 9 2 1000 = 100 :=
  ⟨C1_engagement_score_in_range 1000 50 9 2 1000 (by norm_num) (by norm_num) (by norm_num)
      (by norm_num) (by norm_num),
    by norm_num [compute_engagement_score, roundTo, round_eq, min_def]⟩

/-- C8: `compute_trend_features` returns the 3-decimal-rounded ratio exactly when
the 14-day denominator is positive and exactly 0 otherwise, and both trends are
non-negative (the numerator fields being non-negative, as the data model
requires); the division only ever runs with a positive denominator. -/
theorem C8_trend_guard (g7 g14 : Int) (pt7 pt14 : ℚ) (h7 : 0 ≤ g7) (hp7 : 0 ≤ pt7) :
    ((0 < g14 → (compute_trend_features g7 g14 pt7 pt14).games_trend_7d_vs_14d =
        roundTo 3 ((g7 : ℚ) / (g14 : ℚ))) ∧
      (g14 ≤ 0 → (compute_trend_features g7 g14 pt7 pt14).games_trend_7d_vs_14d = 0) ∧
      0 ≤ (compute_trend_features g7 g14 pt7 pt14).games_trend_7d_vs_14d) ∧
    ((0 < pt14 → (compute_trend_features g7 g14 pt7 pt14).playtime_trend_7d_vs_14d =
        roundTo 3 (pt7 / pt14)) ∧
      (pt14 ≤ 0 → (compute_trend_features g7 g14 pt7 pt14).playtime_trend_7d_vs_14d = 0) ∧
      0 ≤ (compute_trend_features g7 g14 pt7 pt14).playtime_trend_7d_vs_14d) := by
  unfold compute_trend_features
  constructor
  · by_cases hg : 0 < g14
    · refine ⟨fun _ => by rw [if_pos hg], fun hle => absurd hg (not_lt.mpr hle), ?_⟩
      rw [if_pos hg]
      exact roundTo_nonneg 3 (div_nonneg (by exact_mod_cast h7) (by exact_mod_cast hg.le))
    · exact ⟨fun hlt => absurd hlt hg, fun _ => by rw [if_neg hg], by rw [if_neg hg]⟩
  · by_cases hq : 0 < pt14
    · refine ⟨fun _ => by rw [if_pos hq], fun hle => absurd hq (not_lt.mpr hle), ?_⟩
      rw [if_pos hq]
      exact roundTo_nonneg 3 (div_nonneg hp7 hq.le)
    · exact ⟨fun hlt => absurd hlt hq, fun _ => by rw [if_neg hq], by rw [if_neg hq]⟩

/-- Witness for C8 at concrete windows, both with a positive and with a zero
denominator. -/
theorem C8_trend_guard_witness :
    0 ≤ (compute_trend_features 1 2 1 4).games_trend_7d_vs_14d ∧
    (compute_trend_features 1 0 1 0).playtime_trend_7d_vs_14d = 0 :=
  ⟨(C8_trend_guard 1 2 1 4 (by norm_num) (by norm_num)).1.2.2,
    (C8_trend_guard 1 0 1 0 (by norm_num) (by norm_num)).2.2.1 (by norm_num)⟩

theorem trend_bounds {g7 g14 : Int} (pt7 pt14 : ℚ) (h0 : 0 ≤ g7) (hle : g7 ≤ g14) :
    0 ≤ (compute_trend_features g7 g14 pt7 pt14).games_trend_7d_vs_14d ∧
      (compute_trend_features g7 g14 pt7 pt14).games_trend_7d_vs_14d ≤ 1 := by
  unfold compute_trend_features
  dsimp only
  by_cases hg : 0 < g14
  · rw [if_pos hg]
    have hq : (0 : ℚ) < (g14 : ℚ) := by exact_mod_cast hg
    constructor
    · exact roundTo_nonneg 3 (div_nonneg (by exact_mod_cast h0) hq.le)
    · calc roundTo 3 ((g7 : ℚ) / (g14 : ℚ)) ≤ roundTo 3 1 :=
            roundTo_mono 3 ((div_le_one hq).mpr (by exact_mod_cast hle))
        _ = 1 := by exact_mod_cast roundTo_intCast 3 1
  · rw [if_neg hg]
    norm_num

theorem bff_games_trend_bounds (df : List PlayerActivity) (pid pf : String) (ref : Int)
    (peerStore : String → Option (List Peer)) (s : Settings) :
    0 ≤ (build_features_for_player df pid pf ref peerStore s).games_trend_7d_vs_14d ∧
      (build_features_for_player df pid pf ref peerStore s).games_trend_7d_vs_14d ≤ 1 :=
  trend_bounds (compute_time_window_features df pid pf ref).playtime_7d_hours
    (compute_time_window_features df pid pf ref).playtime_14d_hours
    (Int.ofNat_nonneg _)
    (by exact_mod_cast ctwf_g7_le_g14 df pid pf ref)

/-- C6 counterexample: the claim asserts some input makes the pipeline's games
trend exceed 1.0; no input does, since the 7-day window is a subset of the
14-day window. -/
theorem C6_counterexample :
    ¬ ∃ (df : List PlayerActivity) (pid pf : String) (ref : Int)
        (peerStore : String → Option (List Peer)) (s : Settings),
        1 < (build_features_for_player df pid pf ref peerStore s).games_trend_7d_vs_14d := by
  rintro ⟨df, pid, pf, ref, peerStore, s, h⟩
  exact absurd h (not_lt.mpr (bff_games_trend_bounds df pid pf ref peerStore s).2)

/-- C6 amended: for every activity collection and reference instant the pipeline's
`games_trend_7d_vs_14d` lies in `[0, 1]` — the 7-day window count never exceeds
the 14-day window count, so the ratio needs no clamping and bursty recent
activity can only push it up to exactly 1.0. -/
theorem C6_games_trend_at_most_one (df : List PlayerActivity) (pid pf : String) (ref : Int)
    (peerStore : String → Option (List Peer)) (s : Settings) :
    0 ≤ (build_features_for_player df pid pf ref peerStore s).games_trend_7d_vs_14d ∧
      (build_features_for_player df pid pf ref peerStore s).games_trend_7d_vs_14d ≤ 1 :=
  bff_games_trend_bounds df pid pf ref peerStore s

/-- C3 counterexample: at 13.9954 days since the last game (threshold 14), the
returned `days_since_last_game` rounds up to 14.0 — at or above the threshold —
yet `churned` is `false`, because the code compares the unrounded value. -/
theorem C3_counterexample :
    (compute_churn_label [actW] ("p") ("chess_com") 1209200 defaultSettings).churned = false ∧
    (defaultSettings.churn_threshold_days : ℚ) ≤
      (compute_churn_label [actW] ("p") ("chess_com") 1209200
        defaultSettings).days_since_last_game := by
  have hmax : maxTs (filterPlayer [actW] ("p") ("chess_com")) = some 0 := rfl
  unfold compute_churn_label
  rw [hmax]
  constructor
  · dsimp only
    rw [decide_eq_false_iff_not]
    norm_num [defaultSettings]
  · dsimp only
    norm_num [defaultSettings, roundTo, round_eq]

/-- C3 amended: a player with no activity for the key yields `⟨999.0, true⟩`;
otherwise the returned `days_since_last_game` is the exact days-since value
rounded to 2 decimals, while `churned` is computed from the unrounded value —
`churned = true` iff `reference − last ≥ 86400 · churn_threshold_days` seconds —
so the two can disagree within half a hundredth of a day of the threshold. -/
theorem C3_churn_label (df : List PlayerActivity) (pid pf : String) (ref : Int) (s : Settings) :
    (filterPlayer df pid pf = [] → compute_churn_label df pid pf ref s = ⟨999, true⟩) ∧
    (∀ last, maxTs (filterPlayer df pid pf) = some last →
      ((compute_churn_label df pid pf ref s).churned = true ↔
        86400 * s.churn_threshold_days ≤ ref - last) ∧
      (compute_churn_label df pid pf ref s).days_since_last_game =
        roundTo 2 (((ref - last : Int) : ℚ) / 86400)) := by
  constructor
  · intro h
    unfold compute_churn_label
    rw [show maxTs (filterPlayer df pid pf) = none from by rw [h]; rfl]
  · intro last hlast
    unfold compute_churn_label
    rw [hlast]
    refine ⟨?_, rfl⟩
    dsimp only
    rw [decide_eq_true_eq, le_div_iff₀ (by norm_num : (0 : ℚ) < 86400)]
    rw [show ((s.churn_threshold_days : ℚ) * 86400) =
        ((s.churn_threshold_days * 86400 : Int) : ℚ) from by push_cast; ring]
    rw [Int.cast_le]
    constructor
    · intro hh; linarith [hh]
    · intro hh; linarith [hh]

/-- Witness for C3 at an empty collection and at a churned concrete player. -/
theorem C3_churn_label_witness :
    compute_churn_label [] ("p") ("x") 0 defaultSettings = ⟨999, true⟩ ∧
    (compute_churn_label [actW] ("p") ("chess_com") 1728000 defaultSettings).churned = true :=
  ⟨(C3_churn_label [] ("p") ("x") 0 defaultSettings).1 rfl,
    ((C3_churn_label [actW] ("p") ("chess_com") 1728000 defaultSettings).2 0 rfl).1.mpr
      (by norm_num [defaultSettings])⟩

/-- C9 counterexample: `Settings` accepts a negative churn threshold — the value
is stored unchanged and feature computation proceeds with it (here labelling a
player who played at the reference instant as churned) instead of failing fast. -/
theorem C9_counterexample :
    ({ churn_threshold_days := -5 : Settings }).churn_threshold_days = -5 ∧
    (compute_churn_label [actW] ("p") ("chess_com") 0
      { churn_threshold_days := -5 }).churned = true := by
  refine ⟨rfl, ?_⟩
  have hmax : maxTs (filterPlayer [actW] ("p") ("chess_com")) = some 0 := rfl
  unfold compute_churn_label
  rw [hmax]
  dsimp only
  rw [decide_eq_true_eq]
  norm_num

/-- C9 amended: no validation rejects a negative `churn_threshold_days`; the
settings carry it unchanged, and downstream churn labelling runs with it,
marking every player whose last activity is at or before the reference as
churned. -/
theorem C9_negative_threshold_accepted (n : Int) (hn : n < 0) (df : List PlayerActivity)
    (pid pf : String) (ref last : Int) (hlast : maxTs (filterPlayer df pid pf) = some last)
    (hle : last ≤ ref) :
    ({ churn_threshold_days := n : Settings }).churn_threshold_days = n ∧
    (compute_churn_label df pid pf ref { churn_threshold_days := n }).churned = true := by
  refine ⟨rfl, ?_⟩
  unfold compute_churn_label
  rw [hlast]
  dsimp only
  rw [decide_eq_true_eq]
  have h1 : (0 : ℚ) ≤ ((ref - last : Int) : ℚ) / 86400 :=
    div_nonneg (by exact_mod_cast sub_nonneg.mpr hle) (by norm_num)
  have h2 : (n : ℚ) ≤ 0 := by exact_mod_cast hn.le
  linarith

/-- Witness for C9 with threshold −7 and a player active one day before the
reference. -/
theorem C9_negative_threshold_accepted_witness :
    (compute_churn_label [actW] ("p") ("chess_com") 86400
      { churn_threshold_days := -7 }).churned = true :=
  (C9_negative_threshold_accepted (-7) (by norm_num) [actW] ("p") ("chess_com") 86400 0 rfl
    (by norm_num)).2

/-- C10: a Chess.com game whose `end_time` is missing or zero is not skipped; its
activity is emitted with the wall-clock `now` as its timestamp. -/
theorem C10_zero_end_time_uses_now (username : String) (now : Int) (games : List ChessGame)
    (g : ChessGame) (hg : g ∈ games) (hts : g.end_time.getD 0 = 0) :
    ∃ l, standardize_chess_com (RawFile.parsed games) username now = Except.ok l ∧
      l.length = games.length ∧ activityOfChessGame username now g ∈ l ∧
      (activityOfChessGame username now g).game_timestamp = now := by
  refine ⟨games.map (activityOfChessGame username now), rfl, List.length_map _ _,
    List.mem_map_of_mem _ hg, ?_⟩
  unfold activityOfChessGame
  dsimp only
  rw [hts]
  simp

/-- A raw Chess.com game with every key absent, used by the C10 witness. -/
def gW : ChessGame := ⟨none, none, none, none⟩

/-- Witness for C10 at a single keyless game. -/
theorem C10_zero_end_time_uses_now_witness :
    ∃ l, standardize_chess_com (RawFile.parsed [gW]) ("alice") 77 = Except.ok l ∧
      l.length = [gW].length ∧ activityOfChessGame ("alice") 77 gW ∈ l ∧
      (activityOfChessGame ("alice") 77 gW).game_timestamp = 77 :=
  C10_zero_end_time_uses_now ("alice") 77 [gW] gW (List.mem_singleton_self gW) rfl

/-- C4 counterexample: a present-but-unparseable games file makes the Chess.com
standardizer raise the JSON decode error — it does not return an empty set. -/
theorem C4_counterexample :
    standardize_chess_com RawFile.malformed ("alice") 0 = Except.error jsonDecodeError ∧
    standardize_chess_com RawFile.malformed ("alice") 0 ≠ Except.ok [] :=
  ⟨rfl, fun h => Except.noConfusion h⟩

/-- C4 amended: a missing raw file yields an empty activity set without error,
but a malformed (unparseable) raw file raises the parse error and aborts the
standardization pass — malformed input is not converted into an empty set. -/
theorem C4_missing_empty_malformed_raises (username : String) (now : Int) :
    standardize_chess_com RawFile.missing username now = Except.ok [] ∧
    standardize_chess_com RawFile.malformed username now = Except.error jsonDecodeError :=
  ⟨rfl, rfl⟩

/-- A one-activity OpenDota collection for the C5 counterexample. -/
def dfC5 : List PlayerActivity := [⟨"p1", "opendota", 0, 3600, "win", none, "m"⟩]

/-- Peer store with no peers file for anyone. -/
def peersA : String → Option (List Peer) := fun _ => none

/-- Peer store with a three-entry peers file for player `p1`. -/
def peersB : String → Option (List Peer) :=
  fun pid => if pid == "p1" then some [⟨some 5⟩, ⟨some 3⟩, ⟨some 1⟩] else none

/-- C5 counterexample: with the unified activity collection and the reference
instant both unchanged, changing only the side-channel peers file changes the
output rows — per-player output is not fully determined by the activity
collection and reference instant alone. -/
theorem C5_counterexample :
    build_all_features dfC5 peersA defaultSettings 0 ≠
      build_all_features dfC5 peersB defaultSettings 0 := by
  intro h
  have hA : (build_all_features dfC5 peersA defaultSettings 0).map
      (fun r => r.unique_peers_30d) = [0] := rfl
  have hB : (build_all_features dfC5 peersB defaultSettings 0).map
      (fun r => r.unique_peers_30d) = [3] := rfl
  have heq : ([0] : List ℕ) = [3] := by rw [← hA, ← hB, h]
  exact absurd heq (by decide)

theorem ctwf_congr {df df' : List PlayerActivity} (pid pf : String) (ref : Int)
    (h : filterPlayer df pid pf = filterPlayer df' pid pf) :
    compute_time_window_features df pid pf ref = compute_time_window_features df' pid pf ref := by
  unfold compute_time_window_features
  rw [h]

theorem perf_congr {df df' : List PlayerActivity} (pid pf : String) (ref : Int)
    (h : filterPlayer df pid pf = filterPlayer df' pid pf) :
    compute_performance_features df pid pf ref = compute_performance_features df' pid pf ref := by
  unfold compute_performance_features
  rw [h]

theorem churn_congr {df df' : List PlayerActivity} (pid pf : String) (ref : Int) (s : Settings)
    (h : filterPlayer df pid pf = filterPlayer df' pid pf) :
    compute_churn_label df pid pf ref s = compute_churn_label df' pid pf ref s := by
  unfold compute_churn_label
  rw [h]

theorem social_congr (pid : String) {peers peers' : String → Option (List Peer)}
    (h : peers pid = peers' pid) :
    compute_social_features pid peers = compute_social_features pid peers' := by
  unfold compute_social_features
  rw [h]

theorem bff_congr {df df' : List PlayerActivity} (pid pf : String) (ref : Int)
    {peers peers' : String → Option (List Peer)} (s : Settings)
    (hdf : filterPlayer df pid pf = filterPlayer df' pid pf) (hp : peers pid = peers' pid) :
    build_features_for_player df pid pf ref peers s =
      build_features_for_player df' pid pf ref peers' s := by
  unfold build_features_for_player
  rw [ctwf_congr pid pf ref hdf, perf_congr pid pf ref hdf, churn_congr pid pf ref s hdf,
    social_congr pid hp]

/-- C5 amended: the Feature Table Builder is a pure function of the unified
activity collection, the peer-graph snapshot and the reference instant — running
it twice with all three unchanged produces identical rows (each player's row in
fact depends only on that player's own activities and peer entry). -/
theorem C5_build_deterministic (df df' : List PlayerActivity)
    (peers peers' : String → Option (List Peer)) (s : Settings) (now : Int)
    (hdf : df = df') (hp : ∀ pid, peers pid = peers' pid) :
    build_all_features df peers s now = build_all_features df' peers' s now := by
  subst hdf
  unfold build_all_features
  apply List.map_congr_left
  intro pp _
  exact bff_congr pp.1 pp.2 now s rfl (hp pp.1)

/-- A peer store extensionally but not syntactically equal to `peersA`. -/
def peersA2 : String → Option (List Peer) :=
  fun pid => if pid == "nobody" then none else none

/-- Witness for C5: two runs over the same collection and agreeing peer stores
produce identical rows. -/
theorem C5_build_deterministic_witness :
    build_all_features dfC5 peersA defaultSettings 0 =
      build_all_features dfC5 peersA2 defaultSettings 0 :=
  C5_build_deterministic dfC5 dfC5 peersA peersA2 defaultSettings 0 rfl
    (fun pid => by simp [peersA, peersA2, ite_self])

theorem orderedInsert_eq_cons_of_le (a : PlayerActivity) {s : List PlayerActivity}
    (h : ∀ x ∈ s, tsLE a x) : List.orderedInsert tsLE a s = a :: s := by
  cases s with
  | nil => rfl
  | cons c cs => exact List.orderedInsert_of_le tsLE cs (h c (List.mem_cons_self c cs))

theorem filter_orderedInsert (p : PlayerActivity → Bool) (a : PlayerActivity) :
    ∀ {s : List PlayerActivity}, List.Sorted tsLE s →
      (List.orderedInsert tsLE a s).filter p =
        if p a then List.orderedInsert tsLE a (s.filter p) else s.filter p := by
  intro s hs
  induction s with
  | nil =>
    cases hpa : p a <;> simp [List.orderedInsert, hpa]
  | cons b l ih =>
    have hb : ∀ x ∈ l, tsLE b x := (List.sorted_cons.mp hs).1
    have hl : List.Sorted tsLE l := (List.sorted_cons.mp hs).2
    by_cases hab : tsLE a b
    · rw [List.orderedInsert_of_le tsLE l hab]
      have hall : ∀ x ∈ (b :: l).filter p, tsLE a x := by
        intro x hx
        have hx' := List.mem_of_mem_filter hx
        rcases List.mem_cons.mp hx' with rfl | hxl
        · exact hab
        · exact Trans.trans hab (hb x hxl)
      cases hpa : p a
      · simp only [List.filter_cons, hpa, if_neg]
        simp
      · rw [List.filter_cons_of_pos (by rw [hpa]), if_pos rfl]
        rw [orderedInsert_eq_cons_of_le a hall]
    · simp only [List.orderedInsert, if_neg hab, List.filter_cons, ih hl]
      cases hpa : p a <;> cases hpb : p b <;>
        simp [hpa, hpb, List.orderedInsert, hab]

theorem filter_insertionSort (p : PlayerActivity → Bool) :
    ∀ l : List PlayerActivity,
      (List.insertionSort tsLE l).filter p = List.insertionSort tsLE (l.filter p) := by
  intro l
  induction l with
  | nil => rfl
  | cons a l ih =>
    show (List.orderedInsert tsLE a (List.insertionSort tsLE l)).filter p = _
    rw [filter_orderedInsert p a (List.sorted_insertionSort tsLE l), ih]
    rw [List.filter_cons]
    cases hpa : p a
    · simp
    · simp [List.insertionSort]

theorem old_rated_eq (pdf : List PlayerActivity) (c : Int) :
    (ratedSorted pdf).filter (fun a => decide (a.game_timestamp ≤ c)) =
      List.insertionSort tsLE
        (pdf.filter (fun a => a.rating.isSome && decide (a.game_timestamp ≤ c))) := by
  unfold ratedSorted
  rw [filter_insertionSort, List.filter_filter]
  congr 1
  apply List.filter_congr
  intro a _
  rw [Bool.and_comm]

/-- The activity the (amended) claim designates: among the player's rated
activities with timestamp at or before the cutoff, the latest in stable
timestamp order. -/
def lastRatedAtOrBefore (df : List PlayerActivity) (pid pf : String) (cutoff : Int) :
    Option PlayerActivity :=
  (List.insertionSort tsLE ((filterPlayer df pid pf).filter
    (fun a => a.rating.isSome && decide (a.game_timestamp ≤ cutoff)))).getLast?

/-- Rated activity exactly at the 30-day cutoff for the C7 counterexample. -/
def actOld : PlayerActivity := ⟨"p", "chess_com", 100, 0, "win", some 1500, "rapid"⟩

/-- Rated activity at the reference instant for the C7 counterexample. -/
def actNew : PlayerActivity := ⟨"p", "chess_com", 2592100, 0, "win", some 1600, "rapid"⟩

/-- C7 counterexample: a rated activity lying exactly at `reference − 30 days`
(not strictly before it) is still selected as the baseline — the code filters
with `≤` — so `rating_change_30d` is 100 where the claim predicts 0 (no rated
activity is strictly before the cutoff). -/
theorem C7_counterexample :
    (compute_performance_features [actOld, actNew] ("p") ("chess_com")
      2592100).rating_change_30d = 100 ∧
    [actOld, actNew].filter
      (fun a => a.rating.isSome && decide (a.game_timestamp < 2592100 - 30 * 86400)) = [] :=
  ⟨rfl, rfl⟩

/-- C7 amended: with no rated activity at all, `rating_current` is `none` and the
delta is 0; in general `rating_change_30d` equals `rating_current` minus the
rating of the latest rated activity whose timestamp is at or before (not
strictly before) `reference − 30 days`, and 0 when no rated activity is at or
before that cutoff. -/
theorem C7_rating_change_cutoff (df : List PlayerActivity) (pid pf : String) (ref : Int) :
    ((filterPlayer df pid pf).filter (fun a => a.rating.isSome) = [] →
      (compute_performance_features df pid pf ref).rating_current = none ∧
      (compute_performance_features df pid pf ref).rating_change_30d = 0) ∧
    (compute_performance_features df pid pf ref).rating_change_30d =
      (match lastRatedAtOrBefore df pid pf (ref - 30 * 86400) with
        | none => 0
        | some old =>
          (compute_performance_features df pid pf ref).rating_current.getD 0 -
            old.rating.getD 0) := by
  have hkey : lastRatedAtOrBefore df pid pf (ref - 30 * 86400) =
      ((ratedSorted (filterPlayer df pid pf)).filter
        (fun a => decide (a.game_timestamp ≤ ref - 30 * 86400))).getLast? := by
    unfold lastRatedAtOrBefore
    rw [old_rated_eq]
  constructor
  · intro h0
    have hsort : ratedSorted (filterPlayer df pid pf) = [] := by
      unfold ratedSorted
      rw [h0]
      rfl
    simp only [compute_performance_features]
    rw [hsort]
    exact ⟨rfl, rfl⟩
  · rw [hkey]
    simp only [compute_performance_features]
    cases hlast : (ratedSorted (filterPlayer df pid pf)).getLast? with
    | none =>
      rw [List.getLast?_eq_none_iff.mp hlast]
      rfl
    | some last =>
      cases hold : ((ratedSorted (filterPlayer df pid pf)).filter
          (fun a => decide (a.game_timestamp ≤ ref - 30 * 86400))).getLast? with
      | none => rfl
      | some old => rfl

/-- Witness for C7 at an empty collection: no rated activity, so the current
rating is `none` and the delta is 0. -/
theorem C7_rating_change_cutoff_witness :
    (compute_performance_features [] ("p") ("x") 0).rating_current = none ∧
    (compute_performance_features [] ("p") ("x") 0).rating_change_30d = 0 :=
  (C7_rating_change_cutoff [] ("p") ("x") 0).1 rfl
